import Mathlib

/-!
Shallow embedding of the produce quality-scoring pipeline of
`src/quality/services.py` (class `YOLOQualityAnalyzer` and its helpers).

Python floats are modelled as rationals (ℚ).  Outputs of OpenCV / numpy
primitives that the repository merely calls (Laplacian variance, Sobel
gradient-magnitude mean, Gaussian-blur absolute-difference mean, grayscale
standard deviation, contour extraction, background per-channel standard
deviation, hue-channel standard deviation, Gabor texture energy) are modelled
as fields of `ImageData`; every arithmetic step performed by the repository's
own code is embedded exactly.  Dict keys that may be absent are `Option`
fields.
-/

namespace AgriMart

/-- A raw box produced by the YOLO backend (`box.conf`, `box.xyxy`,
resolved class name), before the repository's confidence filtering. -/
structure RawBox where
  clsName : String
  conf : ℚ
  xyxy : List ℚ
deriving Repr, DecidableEq

/-- The detector state held in `self.model`: the string sentinel
`"placeholder_model"` (no backend available) or a real backend whose
invocation on the image yields a list of raw boxes. -/
inductive YoloModel where
  | placeholder
  | real (boxes : List RawBox)
deriving Repr, DecidableEq

/-- One entry of the list returned by `_detect_objects`. -/
structure Detection where
  className : String
  confidence : ℚ
  bbox : List ℚ
  center : List ℚ
deriving Repr, DecidableEq

/-- Embedding of `YOLOQualityAnalyzer._detect_objects` (services.py 147-184).
The placeholder branch appends one simulated detection; the real branch keeps
exactly the boxes with `confidence >= self.confidence_threshold`. -/
def detectObjects (threshold : ℚ) (model : YoloModel) : List Detection :=
  match model with
  | .placeholder =>
      [{ className := "fruit", confidence := 85/100,
         bbox := [100, 100, 200, 200], center := [150, 150] }]
  | .real boxes =>
      (boxes.filter (fun b => decide (threshold ≤ b.conf))).map (fun b =>
        { className := b.clsName, confidence := b.conf, bbox := b.xyxy,
          center := [(b.xyxy.getD 0 0 + b.xyxy.getD 2 0) / 2,
                     (b.xyxy.getD 1 0 + b.xyxy.getD 3 0) / 2] })

/-- One entry of `self.product_standards` (services.py 29-66). -/
structure ProductStandard where
  colorLo : ℚ × ℚ × ℚ
  colorHi : ℚ × ℚ × ℚ
  sizeMin : ℚ
  sizeMax : ℚ
  shapeCircularity : ℚ
  defectTolerance : ℚ
deriving Repr, DecidableEq

/-- The `apple` entry of `self.product_standards`. -/
def appleStandard : ProductStandard :=
  { colorLo := (0, 100, 100), colorHi := (10, 255, 255),
    sizeMin := 5000, sizeMax := 50000,
    shapeCircularity := 7/10, defectTolerance := 1/10 }

/-- Embedding of `self.product_standards` (services.py 29-66). -/
def productStandards : List (String × ProductStandard) :=
  [ ("apple", appleStandard),
    ("tomato",
      { colorLo := (0, 100, 100), colorHi := (15, 255, 255),
        sizeMin := 3000, sizeMax := 30000,
        shapeCircularity := 8/10, defectTolerance := 1/20 }),
    ("banana",
      { colorLo := (20, 100, 100), colorHi := (30, 255, 255),
        sizeMin := 8000, sizeMax := 40000,
        shapeCircularity := 3/10, defectTolerance := 3/20 }),
    ("orange",
      { colorLo := (10, 100, 100), colorHi := (25, 255, 255),
        sizeMin := 4000, sizeMax := 35000,
        shapeCircularity := 3/4, defectTolerance := 1/10 }),
    ("cabbage",
      { colorLo := (50, 50, 50), colorHi := (80, 255, 255),
        sizeMin := 10000, sizeMax := 80000,
        shapeCircularity := 3/5, defectTolerance := 1/5 }),
    ("potato",
      { colorLo := (15, 30, 80), colorHi := (25, 100, 200),
        sizeMin := 2000, sizeMax := 25000,
        shapeCircularity := 1/2, defectTolerance := 3/10 }) ]

/-- `product_type in self.product_standards` plus the lookup itself. -/
def lookupStandard (pt : String) : Option ProductStandard :=
  (productStandards.find? (fun p => p.1 == pt)).map Prod.snd

/-- The per-call image data consumed by the analyzers.  List fields hold the
actual pixel data the repository iterates over (grayscale intensities, HSV
triples, LAB triples, the 256-bin grayscale histogram); the remaining fields
model the numeric outputs of the OpenCV primitives named in the comments. -/
structure ImageData where
  grayPixels : List ℚ
  hsvPixels : List (ℚ × ℚ × ℚ)
  labPixels : List (ℚ × ℚ × ℚ)
  grayHist : List ℕ
  laplacianVar : ℚ
  gradientMagMean : ℚ
  blurAbsDiffMean : ℚ
  grayStd : ℚ
  backgroundStdMean : Option ℚ
  contourArea : Option ℚ
  contourCircularity : Option ℚ
  darkContourAreas : List ℚ
  hueStd : ℚ
  textureEnergy : ℚ
deriving Repr, DecidableEq

/-- `np.mean` over a flat list of rationals. -/
def listMean (l : List ℚ) : ℚ := l.sum / l.length

/-- `_calculate_sharpness` (services.py 210-215): `min(100, laplacian_var / 10)`. -/
def calcSharpness (img : ImageData) : ℚ := min 100 (img.laplacianVar / 10)

/-- `_calculate_brightness` (services.py 217-220): mean grayscale intensity. -/
def calcBrightness (img : ImageData) : ℚ := listMean img.grayPixels

/-- `_calculate_contrast` (services.py 222-225): `np.std(gray)` (modelled). -/
def calcContrast (img : ImageData) : ℚ := img.grayStd

/-- `_calculate_saturation` (services.py 227-230): mean of the HSV S channel. -/
def calcSaturation (img : ImageData) : ℚ := listMean (img.hsvPixels.map (fun p => p.2.1))

/-- `_calculate_noise_level` (services.py 232-238): mean absolute difference
to a Gaussian-blurred copy (modelled). -/
def calcNoiseLevel (img : ImageData) : ℚ := img.blurAbsDiffMean

/-- `_analyze_focus_quality` (services.py 240-246): mean Sobel gradient
magnitude (modelled). -/
def analyzeFocusQuality (img : ImageData) : ℚ := img.gradientMagMean

/-- `_analyze_lighting_quality` (services.py 248-265): percentage of nonzero
histogram bins minus the larger of the overexposed and underexposed
percentages, floored at 0. -/
def analyzeLightingQuality (img : ImageData) : ℚ :=
  let hist := img.grayHist
  let distributionScore := ((hist.filter (fun b => b != 0)).length : ℚ) / 256 * 100
  let total : ℚ := (hist.sum : ℚ)
  let overexposed := ((hist.drop 240).sum : ℚ) / total * 100
  let underexposed := ((hist.take 15).sum : ℚ) / total * 100
  max 0 (distributionScore - max overexposed underexposed)

/-- `_analyze_background` (services.py 267-291): when enough background
pixels exist (`backgroundStdMean = some s`, where `s` models the mean
per-channel LAB standard deviation), the score is `max(0, 100 - s)`;
otherwise the default 50. -/
def analyzeBackground (img : ImageData) : ℚ :=
  match img.backgroundStdMean with
  | some s => max 0 (100 - s)
  | none => 50

/-- `cv2.inRange` on one HSV pixel. -/
def inColorRange (lo hi p : ℚ × ℚ × ℚ) : Bool :=
  decide (lo.1 ≤ p.1 ∧ p.1 ≤ hi.1 ∧ lo.2.1 ≤ p.2.1 ∧ p.2.1 ≤ hi.2.1 ∧
          lo.2.2 ≤ p.2.2 ∧ p.2.2 ≤ hi.2.2)

/-- `_analyze_color_accuracy` (services.py 293-311): fraction of pixels in
the ideal HSV range, times 100, times 2, capped at 100; fixed 75 for an
unknown product type. -/
def analyzeColorAccuracy (img : ImageData) (pt : String) : ℚ :=
  match lookupStandard pt with
  | none => 75
  | some std =>
      let idealPixels := (img.hsvPixels.filter (inColorRange std.colorLo std.colorHi)).length
      let totalPixels := img.hsvPixels.length
      min 100 ((idealPixels : ℚ) / (totalPixels : ℚ) * 100 * 2)

/-- `_analyze_size_appropriateness` (services.py 313-330).  `contourArea`
models the `'area'` key of `_advanced_size_analysis` (absent when no contour
was found, in which case the code returns 50). -/
def analyzeSizeAppropriateness (img : ImageData) (pt : String) : ℚ :=
  match lookupStandard pt with
  | none => 75
  | some std =>
      match img.contourArea with
      | none => 50
      | some area =>
          if std.sizeMin ≤ area ∧ area ≤ std.sizeMax then 100
          else if area < std.sizeMin then
            max 0 (100 - (std.sizeMin - area) / std.sizeMin * 100)
          else
            max 0 (100 - (area - std.sizeMax) / std.sizeMax * 100)

/-- `_analyze_shape_regularity` (services.py 332-348). -/
def analyzeShapeRegularity (img : ImageData) (pt : String) : ℚ :=
  match lookupStandard pt with
  | none => 75
  | some std =>
      match img.contourCircularity with
      | none => 50
      | some c => max 0 (100 - |c - std.shapeCircularity| * 100)

/-- The metrics dict assembled by `_comprehensive_quality_analysis`;
each field models one key, `none` meaning the key is absent. -/
structure QualityMetrics where
  sharpness : Option ℚ
  brightness : Option ℚ
  contrast : Option ℚ
  saturation : Option ℚ
  noiseLevel : Option ℚ
  focusQuality : Option ℚ
  lightingQuality : Option ℚ
  backgroundUniformity : Option ℚ
  colorAccuracy : Option ℚ
  sizeAppropriateness : Option ℚ
  shapeRegularity : Option ℚ
deriving Repr, DecidableEq

/-- `_comprehensive_quality_analysis` (services.py 186-208): the eight
general metrics are always set; the three product-specific metrics are set
only when `product_type in self.product_standards`. -/
def comprehensiveQualityAnalysis (img : ImageData) (pt : String) : QualityMetrics :=
  { sharpness := some (calcSharpness img)
    brightness := some (calcBrightness img)
    contrast := some (calcContrast img)
    saturation := some (calcSaturation img)
    noiseLevel := some (calcNoiseLevel img)
    focusQuality := some (analyzeFocusQuality img)
    lightingQuality := some (analyzeLightingQuality img)
    backgroundUniformity := some (analyzeBackground img)
    colorAccuracy :=
      if (lookupStandard pt).isSome then some (analyzeColorAccuracy img pt) else none
    sizeAppropriateness :=
      if (lookupStandard pt).isSome then some (analyzeSizeAppropriateness img pt) else none
    shapeRegularity :=
      if (lookupStandard pt).isSome then some (analyzeShapeRegularity img pt) else none }

/-- One optional score component of `_calculate_overall_score`: the term is
present exactly when the metric key is present in the dict. -/
def optTerm (v : Option ℚ) (f : ℚ → ℚ) : ℚ :=
  match v with
  | none => 0
  | some x => f x

/-- The detection-confidence component (services.py 670-673): present only
when the detection list is non-empty; mean confidence times 100 times 0.1. -/
def detectionTerm (objects : List Detection) : ℚ :=
  match objects with
  | [] => 0
  | _ => (objects.map (fun d => d.confidence)).sum / (objects.length : ℚ) * 100 * (1/10)

/-- The sum of the weighted score components of `_calculate_overall_score`
(services.py 646-680), in source order. -/
def totalScore (m : QualityMetrics) (objects : List Detection) : ℚ :=
  optTerm m.sharpness (fun s => s * (1/10))
  + optTerm m.brightness (fun b => max 0 (100 - |b - 130| * 2) * (1/10))
  + optTerm m.contrast (fun c => max 0 (100 - |c - 65| * (3/2)) * (1/10))
  + optTerm m.lightingQuality (fun l => l * (1/10))
  + optTerm m.colorAccuracy (fun c => c * (2/10))
  + optTerm m.sizeAppropriateness (fun s => s * (1/10))
  + optTerm m.shapeRegularity (fun s => s * (1/10))
  + detectionTerm objects
  + optTerm m.backgroundUniformity (fun b => b * (1/10))

/-- The noise penalty of `_calculate_overall_score` (services.py 683-685):
`(noise_level - 20) * 0.5` when `noise_level > 20`. -/
def noisePenalty (m : QualityMetrics) : ℚ :=
  match m.noiseLevel with
  | some n => if 20 < n then (n - 20) * (1/2) else 0
  | none => 0

/-- Python `round(x, 2)` modelled with Mathlib `round` (the two differ only
in the tie-breaking rule for exact half-cent values). -/
def round2 (q : ℚ) : ℚ := ((round (q * 100) : ℤ) : ℚ) / 100

/-- `_calculate_overall_score` (services.py 644-689): weighted sum of the
present components, minus the noise penalty, clamped to [0,100], rounded to
2 decimals.  The `product_type` argument is received but unused, as in the
source. -/
def calculateOverallScore (m : QualityMetrics) (objects : List Detection)
    (_pt : String) : ℚ :=
  round2 (max 0 (min 100 (totalScore m objects - noisePenalty m)))

/-- The default `QUALITY_GRADES` table (services.py 693-698), as pairs
(grade, min_score). -/
def defaultGrades : List (String × ℚ) :=
  [("A", 85), ("B", 70), ("C", 50), ("D", 0)]

/-- The sort key used by `_get_quality_grade`: descending `min_score`. -/
def gradeOrder (a b : String × ℚ) : Prop := b.2 ≤ a.2

instance : DecidableRel gradeOrder :=
  fun a b => inferInstanceAs (Decidable (b.2 ≤ a.2))

instance : IsTotal (String × ℚ) gradeOrder :=
  ⟨fun a b => le_total b.2 a.2⟩

instance : IsTrans (String × ℚ) gradeOrder :=
  ⟨fun _ _ _ h₁ h₂ => le_trans h₂ h₁⟩

/-- `sorted(grades.items(), key=min_score, reverse=True)` (services.py
700-702). -/
def sortGradesDesc (grades : List (String × ℚ)) : List (String × ℚ) :=
  List.insertionSort gradeOrder grades

/-- `_get_quality_grade` (services.py 691-705): first grade, in descending
order of `min_score`, whose `min_score` the score meets or exceeds;
fallback `"D"`. -/
def getQualityGrade (grades : List (String × ℚ)) (score : ℚ) : String :=
  match (sortGradesDesc grades).find? (fun g => decide (g.2 ≤ score)) with
  | some g => g.1
  | none => "D"

/-- One defect dict: its `'type'`, its `'severity'`, and the remaining
numeric payload keys. -/
structure DefectRecord where
  dtype : String
  severity : String
  payload : List (String × ℚ)
deriving Repr, DecidableEq

/-- `_detect_dark_spots` (services.py 373-400).  `darkContourAreas` models
the areas of the contours cv2 finds in the dark mask; the code counts those
above 100 px and sums their areas. -/
def detectDarkSpots (darkContourAreas : List ℚ) : List DefectRecord :=
  let significant := darkContourAreas.filter (fun a => decide (100 < a))
  let significantSpots := significant.length
  let totalDarkArea := significant.sum
  if 0 < significantSpots then
    [{ dtype := "dark_spots",
       severity := if 5 < significantSpots then "high" else "medium",
       payload := [("count", (significantSpots : ℚ)), ("total_area", totalDarkArea)] }]
  else []

/-- `_detect_color_inconsistencies` (services.py 402-416); `hueStd` models
`np.std(hsv[:,:,0])`. -/
def detectColorInconsistencies (hueStd : ℚ) : List DefectRecord :=
  if 30 < hueStd then
    [{ dtype := "color_inconsistency", severity := "medium",
       payload := [("variance", hueStd)] }]
  else []

/-- A LAB pixel whose A or B channel falls outside the central band
[100,155] (services.py 427-430). -/
def labExtreme (p : ℚ × ℚ × ℚ) : Bool :=
  decide ((p.2.1 < 100 ∨ 155 < p.2.1) ∨ (p.2.2 < 100 ∨ 155 < p.2.2))

/-- The flagged-pixel percentage of `_detect_surface_blemishes`
(services.py 430-431). -/
def blemishPercentage (labPixels : List (ℚ × ℚ × ℚ)) : ℚ :=
  ((labPixels.filter labExtreme).length : ℚ) / (labPixels.length : ℚ) * 100

/-- `_detect_surface_blemishes` (services.py 418-440). -/
def detectSurfaceBlemishes (labPixels : List (ℚ × ℚ × ℚ)) : List DefectRecord :=
  if 5 < blemishPercentage labPixels then
    [{ dtype := "surface_blemishes",
       severity := if 15 < blemishPercentage labPixels then "high" else "medium",
       payload := [("percentage", blemishPercentage labPixels)] }]
  else []

/-- `_detect_texture_issues` (services.py 442-460); `textureEnergy` models
the mean squared Gabor response. -/
def detectTextureIssues (textureEnergy : ℚ) : List DefectRecord :=
  if 1000 < textureEnergy then
    [{ dtype := "texture_irregularity", severity := "low",
       payload := [("energy", textureEnergy)] }]
  else []

/-- `_detect_defects` (services.py 350-371): concatenation of the four
independent heuristics.  `product_type` is received but unused, as in the
source. -/
def detectDefects (img : ImageData) (_pt : String) : List DefectRecord :=
  detectDarkSpots img.darkContourAreas
  ++ detectColorInconsistencies img.hueStd
  ++ detectSurfaceBlemishes img.labPixels
  ++ detectTextureIssues img.textureEnergy

/-- The claim-relevant fields of the normal `analysis_result` dict built in
`analyze_image` (services.py 113-125).  The remaining keys (`image_info`,
`color_analysis`, `size_analysis`, `freshness_indicators`,
`recommendations`, `timestamp`) are tracked only through
`AnalysisOutput.hasKey`. -/
structure AnalysisResult where
  overallScore : ℚ
  grade : String
  objectsDetected : List Detection
  qualityMetrics : QualityMetrics
  defects : List DefectRecord
deriving Repr, DecidableEq

/-- The two dict shapes `analyze_image` can return: the error dict
`{'error': msg}` or the normal result dict. -/
inductive AnalysisOutput where
  | errorDict (msg : String)
  | result (r : AnalysisResult)
deriving Repr, DecidableEq

/-- A Python exception escaping a call. -/
inductive PyExn where
  | exn (msg : String)
deriving Repr, DecidableEq

/-- Which top-level keys each returned dict shape contains (services.py
98, 113-125, 131). -/
def AnalysisOutput.hasKey : AnalysisOutput → String → Bool
  | .errorDict _, k => k == "error"
  | .result _, k =>
      (["overall_score", "grade", "image_info", "objects_detected",
        "quality_metrics", "defects", "color_analysis", "size_analysis",
        "freshness_indicators", "recommendations", "timestamp"]).contains k

/-- `YOLOQualityAnalyzer.analyze_image` (services.py 92-131).
`loadedImage = none` models `cv2.imread` returning `None` (undecodable
input).  The `Except` layer records whether a Python exception escapes the
call: the code's catch-all `except` turns every internal failure into an
error dict, so no branch produces `.error`. -/
def analyzeImage (loadedImage : Option ImageData) (pt : String)
    (model : YoloModel) (threshold : ℚ)
    (grades : List (String × ℚ)) : Except PyExn AnalysisOutput :=
  match loadedImage with
  | none => .ok (.errorDict "Could not load image")
  | some img =>
      let objects := detectObjects threshold model
      let metrics := comprehensiveQualityAnalysis img pt
      let score := calculateOverallScore metrics objects pt
      .ok (.result
        { overallScore := score
          grade := getQualityGrade grades score
          objectsDetected := objects
          qualityMetrics := metrics
          defects := detectDefects img pt })

/-- Sanity conditions every decoded image satisfies: pixels are uint8
channel values, the histogram has 256 bins, and the modelled OpenCV
statistics (variances, standard deviations, absolute-difference means,
gradient magnitudes, energies) are nonnegative. -/
def ImageData.WellFormed (img : ImageData) : Prop :=
  img.grayPixels ≠ [] ∧
  img.hsvPixels ≠ [] ∧
  (∀ g ∈ img.grayPixels, 0 ≤ g ∧ g ≤ 255) ∧
  (∀ p ∈ img.hsvPixels, 0 ≤ p.2.1 ∧ p.2.1 ≤ 255) ∧
  img.grayHist.length = 256 ∧
  0 ≤ img.laplacianVar ∧
  0 ≤ img.gradientMagMean ∧
  0 ≤ img.blurAbsDiffMean ∧
  0 ≤ img.grayStd ∧
  0 ≤ img.backgroundStdMean.getD 0 ∧
  0 ≤ img.hueStd ∧
  0 ≤ img.textureEnergy

instance (img : ImageData) : Decidable img.WellFormed := by
  unfold ImageData.WellFormed
  infer_instance

/-- A concrete 1-by-1 all-white decoded image used as a test input. -/
def whiteImg : ImageData :=
  { grayPixels := [255]
    hsvPixels := [(0, 0, 255)]
    labPixels := [(255, 128, 128)]
    grayHist := List.replicate 255 0 ++ [1]
    laplacianVar := 0
    gradientMagMean := 0
    blurAbsDiffMean := 0
    grayStd := 0
    backgroundStdMean := none
    contourArea := none
    contourCircularity := none
    darkContourAreas := []
    hueStd := 0
    textureEnergy := 0 }

/-- Spec-side restatement of the grade rule ("first grade, in descending
order, whose minimum score the score meets or exceeds"), to be compared
with the code's `find?`-based `getQualityGrade`. -/
def firstMatchSpec (l : List (String × ℚ)) (s : ℚ) : String :=
  match l with
  | [] => "D"
  | g :: gs => if g.2 ≤ s then g.1 else firstMatchSpec gs s

/-- A metrics dict whose eight general metrics are all 0 and whose
product-specific metrics are absent; used as a concrete aggregator input. -/
def zeroMetrics : QualityMetrics :=
  { sharpness := some 0, brightness := some 0, contrast := some 0,
    saturation := some 0, noiseLevel := some 0, focusQuality := some 0,
    lightingQuality := some 0, backgroundUniformity := some 0,
    colorAccuracy := none, sizeAppropriateness := none, shapeRegularity := none }

/-- A metrics dict whose eight general metrics are all 50 and whose
product-specific metrics are absent; used as a concrete aggregator input. -/
def fiftyMetrics : QualityMetrics :=
  { sharpness := some 50, brightness := some 50, contrast := some 50,
    saturation := some 50, noiseLevel := some 50, focusQuality := some 50,
    lightingQuality := some 50, backgroundUniformity := some 50,
    colorAccuracy := none, sizeAppropriateness := none, shapeRegularity := none }

/-- A concrete image whose main contour has area 6000, inside the apple
size range. -/
def contourImg : ImageData :=
  { whiteImg with contourArea := some 6000, contourCircularity := some (7/10) }

/-! ### Helper lemmas -/

theorem listMean_nonneg {l : List ℚ} (h : ∀ x ∈ l, 0 ≤ x) : 0 ≤ listMean l :=
  div_nonneg (List.sum_nonneg h) (Nat.cast_nonneg _)

theorem listMean_le {l : List ℚ} {c : ℚ} (hne : l ≠ []) (h : ∀ x ∈ l, x ≤ c) :
    listMean l ≤ c := by
  have hlen : 0 < (l.length : ℚ) := by
    exact_mod_cast List.length_pos.mpr hne
  rw [listMean, div_le_iff₀ hlen]
  calc l.sum ≤ l.length • c := List.sum_le_card_nsmul l c h
    _ = (l.length : ℚ) * c := by rw [nsmul_eq_mul]
    _ = c * (l.length : ℚ) := mul_comm _ _

theorem round2_mono {a b : ℚ} (h : a ≤ b) : round2 a ≤ round2 b := by
  unfold round2
  have hr : round (a * 100) ≤ round (b * 100) := by
    rw [round_eq, round_eq]
    exact Int.floor_le_floor (by linarith)
  exact div_le_div_of_nonneg_right (by exact_mod_cast hr) (by norm_num)

theorem round2_zero : round2 0 = 0 := by
  simp [round2]

theorem round2_hundred : round2 100 = 100 := by
  unfold round2
  have h : ((100 : ℚ) * 100) = ((10000 : ℤ) : ℚ) := by norm_num
  rw [h, round_intCast]
  norm_num

theorem round2_nonneg {a : ℚ} (h : 0 ≤ a) : 0 ≤ round2 a :=
  round2_zero ▸ round2_mono h

theorem round2_le_hundred {a : ℚ} (h : a ≤ 100) : round2 a ≤ 100 :=
  round2_hundred ▸ round2_mono h

theorem round2_strict {a b : ℚ} (h : a + 1/100 ≤ b) : round2 a < round2 b := by
  unfold round2
  have hr : round (a * 100) + 1 ≤ round (b * 100) := by
    have h1 : round (a * 100) + 1 = round (a * 100 + ((1 : ℤ) : ℚ)) := by
      rw [round_add_int]
    rw [h1, round_eq, round_eq]
    exact Int.floor_le_floor (by push_cast; linarith)
  have : ((round (a * 100) : ℤ) : ℚ) < ((round (b * 100) : ℤ) : ℚ) := by
    exact_mod_cast Int.lt_of_add_one_le hr
  exact div_lt_div_of_pos_right this (by norm_num)

theorem find?_grade_eq_firstMatch (l : List (String × ℚ)) (s : ℚ) :
    (match l.find? (fun g => decide (g.2 ≤ s)) with
     | some g => g.1
     | none => "D") = firstMatchSpec l s := by
  induction l with
  | nil => rfl
  | cons g gs ih =>
      by_cases h : g.2 ≤ s
      · simp [List.find?_cons, h, firstMatchSpec]
      · simp only [List.find?_cons, decide_eq_true_eq] at *
        simp [h, firstMatchSpec, ih]

theorem getQualityGrade_mem (grades : List (String × ℚ)) (s : ℚ) :
    getQualityGrade grades s = "D" ∨
    getQualityGrade grades s ∈ (sortGradesDesc grades).map Prod.fst := by
  unfold getQualityGrade
  cases hf : (sortGradesDesc grades).find? (fun g => decide (g.2 ≤ s)) with
  | none => left; rfl
  | some g =>
      right
      exact List.mem_map_of_mem Prod.fst (List.mem_of_find?_eq_some hf)

theorem lookupStandard_size_pos {pt : String} {std : ProductStandard}
    (h : lookupStandard pt = some std) :
    0 < std.sizeMin ∧ 0 < std.sizeMax ∧ std.sizeMin ≤ std.sizeMax := by
  unfold lookupStandard at h
  rcases Option.map_eq_some'.mp h with ⟨p, hp, hps⟩
  have hmem := List.mem_of_find?_eq_some hp
  subst hps
  fin_cases hmem <;> decide

/-! ### Claim theorems -/

/-- C1 (counterexample): on an undecodable input (`cv2.imread` returns
`None`), `analyze_image` does not raise any exception — so in particular it
does not raise a typed `ImageDecodeError`; it returns normally. -/
theorem undecodable_raises_counterexample :
    ¬ ∃ e, analyzeImage none "apple" YoloModel.placeholder (1/2) defaultGrades
        = Except.error e := by
  rintro ⟨e, h⟩
  simp [analyzeImage] at h

/-- C1 (amended): for every undecodable input, `analyze_image` returns the
error dict `{'error': 'Could not load image'}` instead of raising, and no
normal result object is produced. -/
theorem undecodable_returns_error_dict (pt : String) (model : YoloModel)
    (threshold : ℚ) (grades : List (String × ℚ)) :
    analyzeImage none pt model threshold grades
      = .ok (.errorDict "Could not load image") ∧
    ∀ r, analyzeImage none pt model threshold grades ≠ .ok (.result r) := by
  refine ⟨rfl, fun r h => ?_⟩
  simp [analyzeImage] at h

/-- C1 (witness): the amended claim instantiated at a concrete call. -/
theorem undecodable_returns_error_dict_witness :
    analyzeImage none "apple" YoloModel.placeholder (1/2) defaultGrades
      = .ok (.errorDict "Could not load image") :=
  (undecodable_returns_error_dict "apple" YoloModel.placeholder (1/2)
    defaultGrades).1

/-- C2 (counterexample): with no detection backend configured (the
placeholder model), `_detect_objects` does not return an empty list — it
fabricates a simulated detection. -/
theorem placeholder_detections_counterexample :
    detectObjects (1/2) YoloModel.placeholder ≠ [] := by decide

/-- C2 (amended): with no backend the adapter returns exactly one hard-coded
simulated detection (class `fruit`, confidence 0.85), bypassing the
threshold filter; with a real backend every returned detection has
confidence at least the threshold; and the aggregator's detection term is 0
for an empty detection list — the total is the detection-free total plus the
detection term. -/
theorem detector_adapter_spec (threshold : ℚ) (boxes : List RawBox)
    (m : QualityMetrics) (objects : List Detection) :
    detectObjects threshold YoloModel.placeholder
      = [{ className := "fruit", confidence := 85/100,
           bbox := [100, 100, 200, 200], center := [150, 150] }] ∧
    (∀ d ∈ detectObjects threshold (YoloModel.real boxes), threshold ≤ d.confidence) ∧
    detectionTerm [] = 0 ∧
    totalScore m objects = totalScore m [] + detectionTerm objects := by
  refine ⟨rfl, ?_, rfl, ?_⟩
  · intro d hd
    simp only [detectObjects, List.mem_map, List.mem_filter,
      decide_eq_true_eq] at hd
    obtain ⟨b, ⟨_, hconf⟩, rfl⟩ := hd
    exact hconf
  · simp only [totalScore, detectionTerm]
    ring

/-- C2 (witness): the amended claim instantiated at a concrete threshold,
box list and metrics map: the surviving real-backend detection meets the
threshold. -/
theorem detector_adapter_spec_witness :
    ∀ d ∈ detectObjects (1/2)
        (YoloModel.real [{ clsName := "apple", conf := 9/10, xyxy := [0, 0, 1, 1] }]),
      (1/2 : ℚ) ≤ d.confidence :=
  (detector_adapter_spec (1/2)
    [{ clsName := "apple", conf := 9/10, xyxy := [0, 0, 1, 1] }]
    zeroMetrics []).2.1

/-- C9: `analyze_image` never propagates an exception: for every input it
returns a dict, and an error dict (the only shape carrying the `'error'`
key) carries none of the normal result fields. -/
theorem analyze_image_never_raises (loadedImage : Option ImageData)
    (pt : String) (model : YoloModel) (threshold : ℚ)
    (grades : List (String × ℚ)) :
    ∃ o, analyzeImage loadedImage pt model threshold grades = .ok o ∧
      (o.hasKey "error" = true ↔ ∀ r, o ≠ AnalysisOutput.result r) ∧
      (o.hasKey "error" = true →
        o.hasKey "overall_score" = false ∧ o.hasKey "grade" = false ∧
        o.hasKey "quality_metrics" = false ∧ o.hasKey "defects" = false) := by
  cases loadedImage with
  | none =>
      refine ⟨.errorDict "Could not load image", rfl, ?_, ?_⟩
      · constructor
        · intro _ r
          simp
        · intro _
          decide
      · intro _
        refine ⟨by decide, by decide, by decide, by decide⟩
  | some img =>
      refine ⟨_, rfl, ?_, ?_⟩
      · constructor
        · intro hk
          simp [AnalysisOutput.hasKey] at hk
        · intro hall
          exact absurd rfl (hall _)
      · intro hk
        simp [AnalysisOutput.hasKey] at hk

/-- C4: for every metrics map, detection list and product type, the overall
score lies in [0,100], it equals the weighted sum of present components
minus the noise penalty clamped to [0,100] and rounded to 2 decimals, and
the grade derived from it under the default table is one of A, B, C, D. -/
theorem overall_score_range (m : QualityMetrics) (objects : List Detection)
    (pt : String) :
    0 ≤ calculateOverallScore m objects pt ∧
    calculateOverallScore m objects pt ≤ 100 ∧
    calculateOverallScore m objects pt
      = round2 (max 0 (min 100 (totalScore m objects - noisePenalty m))) ∧
    getQualityGrade defaultGrades (calculateOverallScore m objects pt)
      ∈ ["A", "B", "C", "D"] := by
  have h0 : 0 ≤ max 0 (min 100 (totalScore m objects - noisePenalty m)) :=
    le_max_left 0 _
  have h100 : max 0 (min 100 (totalScore m objects - noisePenalty m)) ≤ 100 :=
    max_le (by norm_num) (min_le_left _ _)
  refine ⟨round2_nonneg h0, round2_le_hundred h100, rfl, ?_⟩
  rcases getQualityGrade_mem defaultGrades (calculateOverallScore m objects pt)
    with h | h
  · rw [h]; simp
  · have hmap : (sortGradesDesc defaultGrades).map Prod.fst
        = ["A", "B", "C", "D"] := by
      norm_num [sortGradesDesc, defaultGrades, gradeOrder, List.insertionSort,
        List.orderedInsert]
    rw [hmap] at h
    exact h

/-- C5: the returned grade is the first grade, in descending order of
minimum score, whose minimum score the score meets or exceeds (the sorted
table is genuinely descending and the code's lookup agrees with the
first-match rule), and under the default table 85.0 yields A while 84.99
yields B. -/
theorem grade_first_match (grades : List (String × ℚ)) (s : ℚ) :
    List.Sorted gradeOrder (sortGradesDesc grades) ∧
    getQualityGrade grades s = firstMatchSpec (sortGradesDesc grades) s ∧
    getQualityGrade defaultGrades 85 = "A" ∧
    getQualityGrade defaultGrades (8499/100) = "B" := by
  refine ⟨List.sorted_insertionSort gradeOrder grades, ?_, ?_, ?_⟩
  · exact find?_grade_eq_firstMatch (sortGradesDesc grades) s
  · norm_num [getQualityGrade, sortGradesDesc, defaultGrades, gradeOrder,
      List.insertionSort, List.orderedInsert, List.find?]
  · norm_num [getQualityGrade, sortGradesDesc, defaultGrades, gradeOrder,
      List.insertionSort, List.orderedInsert, List.find?]

/-- C6: for a product type with a known standard and a measured contour
area, `size_appropriateness` is 100 inside the size range and falls off
linearly (floored at 0) outside it; for an unknown product type it is the
fixed value 75. -/
theorem size_appropriateness_spec (pt : String) (img : ImageData) (a : ℚ)
    (harea : img.contourArea = some a) :
    (∀ std, lookupStandard pt = some std →
      (std.sizeMin ≤ a ∧ a ≤ std.sizeMax →
        analyzeSizeAppropriateness img pt = 100) ∧
      (a < std.sizeMin →
        analyzeSizeAppropriateness img pt
          = max 0 (100 - (std.sizeMin - a) / std.sizeMin * 100)) ∧
      (std.sizeMax < a →
        analyzeSizeAppropriateness img pt
          = max 0 (100 - (a - std.sizeMax) / std.sizeMax * 100))) ∧
    (lookupStandard pt = none → analyzeSizeAppropriateness img pt = 75) := by
  constructor
  · intro std hstd
    have hpos := lookupStandard_size_pos hstd
    refine ⟨?_, ?_, ?_⟩
    · intro hin
      simp [analyzeSizeAppropriateness, hstd, harea, hin]
    · intro hlt
      have hnotin : ¬ (std.sizeMin ≤ a ∧ a ≤ std.sizeMax) := by
        rintro ⟨h1, _⟩; linarith
      simp [analyzeSizeAppropriateness, hstd, harea, hnotin, hlt]
    · intro hgt
      have hnotin : ¬ (std.sizeMin ≤ a ∧ a ≤ std.sizeMax) := by
        rintro ⟨_, h2⟩; linarith
      have hnotlt : ¬ a < std.sizeMin := by linarith [hpos.2.2]
      simp [analyzeSizeAppropriateness, hstd, harea, hnotin, hnotlt]
  · intro hnone
    simp [analyzeSizeAppropriateness, hnone]

/-- C6 (witness): the apple standard exists, the measured area 6000 is
inside its size range [5000, 50000], and the score is 100. -/
theorem size_appropriateness_spec_witness :
    contourImg.contourArea = some 6000 ∧
    lookupStandard "apple" = some appleStandard ∧
    (appleStandard.sizeMin ≤ (6000 : ℚ) ∧ (6000 : ℚ) ≤ appleStandard.sizeMax) ∧
    analyzeSizeAppropriateness contourImg "apple" = 100 := by
  refine ⟨rfl, rfl, ⟨?_, ?_⟩, ?_⟩
  · norm_num [appleStandard]
  · norm_num [appleStandard]
  · exact ((size_appropriateness_spec "apple" contourImg 6000 rfl).1
      appleStandard rfl).1 ⟨by norm_num [appleStandard], by norm_num [appleStandard]⟩

/-- C8 (counterexample): for the unrecognized product type `"generic"` the
analysis omits `color_accuracy`, `size_appropriateness` and
`shape_regularity` from the metrics map — they are not present with the
value 75. -/
theorem unknown_type_metrics_counterexample :
    (comprehensiveQualityAnalysis whiteImg "generic").colorAccuracy ≠ some 75 ∧
    (comprehensiveQualityAnalysis whiteImg "generic").sizeAppropriateness ≠ some 75 ∧
    (comprehensiveQualityAnalysis whiteImg "generic").shapeRegularity ≠ some 75 := by
  refine ⟨?_, ?_, ?_⟩ <;>
    simp [comprehensiveQualityAnalysis, lookupStandard, productStandards]

/-- C8 (amended): an unrecognized product type never raises — the call
still returns a normal result — but the three product-specific metrics are
omitted from the metrics map entirely; the leaf analyzers themselves do
return the fixed generic value 75 when invoked with an unknown type. -/
theorem unknown_type_defaults (img : ImageData) (pt : String)
    (model : YoloModel) (threshold : ℚ) (grades : List (String × ℚ))
    (h : lookupStandard pt = none) :
    (∃ r, analyzeImage (some img) pt model threshold grades
        = .ok (.result r)) ∧
    (comprehensiveQualityAnalysis img pt).colorAccuracy = none ∧
    (comprehensiveQualityAnalysis img pt).sizeAppropriateness = none ∧
    (comprehensiveQualityAnalysis img pt).shapeRegularity = none ∧
    analyzeColorAccuracy img pt = 75 ∧
    analyzeSizeAppropriateness img pt = 75 ∧
    analyzeShapeRegularity img pt = 75 := by
  refine ⟨⟨_, rfl⟩, ?_, ?_, ?_, ?_, ?_, ?_⟩ <;>
    simp [comprehensiveQualityAnalysis, analyzeColorAccuracy,
      analyzeSizeAppropriateness, analyzeShapeRegularity, h]

/-- C8 (witness): `"generic"` is an unrecognized product type and the
amended claim holds for it on a concrete image. -/
theorem unknown_type_defaults_witness :
    lookupStandard "generic" = none ∧
    (comprehensiveQualityAnalysis whiteImg "generic").colorAccuracy = none ∧
    analyzeColorAccuracy whiteImg "generic" = 75 := by
  refine ⟨rfl, ?_, ?_⟩
  · exact (unknown_type_defaults whiteImg "generic" YoloModel.placeholder
      (1/2) defaultGrades rfl).2.1
  · exact (unknown_type_defaults whiteImg "generic" YoloModel.placeholder
      (1/2) defaultGrades rfl).2.2.2.2.1

/-- C7 (counterexample): with all other metrics fixed at 0, raising
`noise_level` from 30 to 40 leaves `overall_score` unchanged (both clamp to
0), so strictly increasing the noise at/above 20 does not strictly decrease
the score. -/
theorem noise_strict_monotone_counterexample :
    (20 : ℚ) ≤ 30 ∧ (30 : ℚ) < 40 ∧
    calculateOverallScore { zeroMetrics with noiseLevel := some 30 } [] "apple"
      = calculateOverallScore { zeroMetrics with noiseLevel := some 40 } [] "apple" := by
  refine ⟨by norm_num, by norm_num, ?_⟩
  norm_num [calculateOverallScore, totalScore, optTerm, detectionTerm,
    noisePenalty, round2, zeroMetrics]

/-- The noise penalty at a noise level at or above 20 equals
`(noise_level - 20) * 0.5`. -/
theorem noisePenalty_of_ge (m : QualityMetrics) {n : ℚ} (h : 20 ≤ n) :
    noisePenalty { m with noiseLevel := some n } = (n - 20) * (1/2) := by
  show (if 20 < n then (n - 20) * (1/2) else 0) = (n - 20) * (1/2)
  rcases lt_or_eq_of_le h with h' | h'
  · rw [if_pos h']
  · rw [if_neg (by rw [← h']; exact lt_irrefl 20)]
    rw [← h']
    ring

/-- C7 (amended): holding everything but `noise_level` fixed, strictly
increasing the noise at/above 20 strictly increases the subtracted penalty
`(noise_level - 20) * 0.5` and never increases `overall_score`; the score
strictly decreases whenever the penalty increase is at least 0.01 (one
rounding step) and neither the lower nor the upper clamp saturates. -/
theorem noise_monotone_amended (m : QualityMetrics) (objects : List Detection)
    (pt : String) (n₁ n₂ : ℚ) (h20 : 20 ≤ n₁) (hlt : n₁ < n₂) :
    noisePenalty { m with noiseLevel := some n₁ }
      < noisePenalty { m with noiseLevel := some n₂ } ∧
    calculateOverallScore { m with noiseLevel := some n₂ } objects pt
      ≤ calculateOverallScore { m with noiseLevel := some n₁ } objects pt ∧
    (1/100 ≤ (n₂ - n₁) * (1/2) →
      0 ≤ totalScore { m with noiseLevel := some n₂ } objects
          - noisePenalty { m with noiseLevel := some n₂ } →
      totalScore { m with noiseLevel := some n₁ } objects
          - noisePenalty { m with noiseLevel := some n₁ } ≤ 100 →
      calculateOverallScore { m with noiseLevel := some n₂ } objects pt
        < calculateOverallScore { m with noiseLevel := some n₁ } objects pt) := by
  have hp₁ := noisePenalty_of_ge m h20
  have hp₂ := noisePenalty_of_ge m (le_of_lt (lt_of_le_of_lt h20 hlt))
  have hT : totalScore { m with noiseLevel := some n₂ } objects
      = totalScore { m with noiseLevel := some n₁ } objects := rfl
  have hplt : noisePenalty { m with noiseLevel := some n₁ }
      < noisePenalty { m with noiseLevel := some n₂ } := by
    rw [hp₁, hp₂]; linarith
  refine ⟨hplt, ?_, ?_⟩
  · apply round2_mono
    have h1 : totalScore { m with noiseLevel := some n₂ } objects
          - noisePenalty { m with noiseLevel := some n₂ }
        ≤ totalScore { m with noiseLevel := some n₁ } objects
          - noisePenalty { m with noiseLevel := some n₁ } := by
      rw [hT]; linarith
    exact max_le_max le_rfl (min_le_min le_rfl h1)
  · intro hstep hlo hhi
    apply round2_strict
    have hd₂ : 0 ≤ totalScore { m with noiseLevel := some n₂ } objects
        - noisePenalty { m with noiseLevel := some n₂ } := hlo
    have hd₁ : totalScore { m with noiseLevel := some n₁ } objects
        - noisePenalty { m with noiseLevel := some n₁ } ≤ 100 := hhi
    have hd₂' : totalScore { m with noiseLevel := some n₂ } objects
        - noisePenalty { m with noiseLevel := some n₂ } ≤ 100 := by
      rw [hT]; rw [hp₁] at hd₁; rw [hp₂]; linarith
    have hd₁' : 0 ≤ totalScore { m with noiseLevel := some n₁ } objects
        - noisePenalty { m with noiseLevel := some n₁ } := by
      rw [hT] at hd₂; rw [hp₂] at hd₂; rw [hp₁]; linarith
    rw [max_eq_right (le_min (by norm_num) hd₂), min_eq_right hd₂',
        max_eq_right (le_min (by norm_num) hd₁'), min_eq_right hd₁]
    rw [hT, hp₁, hp₂]
    rw [hp₁, hp₂] at *
    linarith

/-- C7 (witness): with all other metrics at 50, raising the noise from 20
to 30 strictly increases the penalty and strictly decreases the score. -/
theorem noise_monotone_amended_witness :
    (20 : ℚ) ≤ 20 ∧ (20 : ℚ) < 30 ∧
    noisePenalty { fiftyMetrics with noiseLevel := some 20 }
      < noisePenalty { fiftyMetrics with noiseLevel := some 30 } ∧
    calculateOverallScore { fiftyMetrics with noiseLevel := some 30 } [] "apple"
      < calculateOverallScore { fiftyMetrics with noiseLevel := some 20 } [] "apple" := by
  have h := noise_monotone_amended fiftyMetrics [] "apple" 20 30
    (by norm_num) (by norm_num)
  refine ⟨by norm_num, by norm_num, h.1, ?_⟩
  apply h.2.2
  · norm_num
  · norm_num [totalScore, optTerm, detectionTerm, noisePenalty, fiftyMetrics]
  · norm_num [totalScore, optTerm, detectionTerm, noisePenalty, fiftyMetrics]

theorem detectDarkSpots_shape (as : List ℚ) :
    detectDarkSpots as = [] ∨
    detectDarkSpots as
      = [{ dtype := "dark_spots",
           severity := if 5 < (as.filter (fun a => decide (100 < a))).length
                       then "high" else "medium",
           payload := [("count", ((as.filter (fun a => decide (100 < a))).length : ℚ)),
                       ("total_area", (as.filter (fun a => decide (100 < a))).sum)] }] := by
  unfold detectDarkSpots
  by_cases h : 0 < (as.filter (fun a => decide (100 < a))).length
  · right; rw [if_pos h]
  · left; rw [if_neg h]

theorem detectColorInconsistencies_shape (hueStd : ℚ) :
    detectColorInconsistencies hueStd = [] ∨
    detectColorInconsistencies hueStd
      = [{ dtype := "color_inconsistency", severity := "medium",
           payload := [("variance", hueStd)] }] := by
  unfold detectColorInconsistencies
  by_cases h : 30 < hueStd
  · right; rw [if_pos h]
  · left; rw [if_neg h]

theorem detectSurfaceBlemishes_shape (labPixels : List (ℚ × ℚ × ℚ)) :
    detectSurfaceBlemishes labPixels = [] ∨
    detectSurfaceBlemishes labPixels
      = [{ dtype := "surface_blemishes",
           severity := if 15 < blemishPercentage labPixels then "high" else "medium",
           payload := [("percentage", blemishPercentage labPixels)] }] := by
  unfold detectSurfaceBlemishes
  by_cases h : 5 < blemishPercentage labPixels
  · right; rw [if_pos h]
  · left; rw [if_neg h]

theorem detectTextureIssues_shape (textureEnergy : ℚ) :
    detectTextureIssues textureEnergy = [] ∨
    detectTextureIssues textureEnergy
      = [{ dtype := "texture_irregularity", severity := "low",
           payload := [("energy", textureEnergy)] }] := by
  unfold detectTextureIssues
  by_cases h : 1000 < textureEnergy
  · right; rw [if_pos h]
  · left; rw [if_neg h]

/-- C10: the defect detector emits at most one record per defect type (the
emitted types are pairwise distinct and the list has length at most 4), and
each record's severity follows the fixed per-type rule: `dark_spots` is
`high` exactly when more than 5 significant spots were counted (else
`medium`), `color_inconsistency` is always `medium`, `surface_blemishes` is
`high` exactly when the flagged-pixel percentage exceeds 15 (else `medium`),
and `texture_irregularity` is always `low`. -/
theorem defects_structure (img : ImageData) (pt : String) :
    (detectDefects img pt).length ≤ 4 ∧
    List.Pairwise (fun d₁ d₂ : DefectRecord => d₁.dtype ≠ d₂.dtype)
      (detectDefects img pt) ∧
    (∀ d ∈ detectDefects img pt,
      (d.dtype = "dark_spots" ∧
        d.severity
          = (if 5 < (img.darkContourAreas.filter (fun a => decide (100 < a))).length
             then "high" else "medium")) ∨
      (d.dtype = "color_inconsistency" ∧ d.severity = "medium") ∨
      (d.dtype = "surface_blemishes" ∧
        d.severity
          = (if 15 < blemishPercentage img.labPixels then "high" else "medium")) ∨
      (d.dtype = "texture_irregularity" ∧ d.severity = "low")) := by
  rcases detectDarkSpots_shape img.darkContourAreas with h1 | h1 <;>
  rcases detectColorInconsistencies_shape img.hueStd with h2 | h2 <;>
  rcases detectSurfaceBlemishes_shape img.labPixels with h3 | h3 <;>
  rcases detectTextureIssues_shape img.textureEnergy with h4 | h4 <;>
  · unfold detectDefects
    rw [h1, h2, h3, h4]
    refine ⟨by simp, by simp, ?_⟩
    intro d hd
    simp only [List.append_nil, List.nil_append, List.cons_append] at hd
    fin_cases hd <;> simp

theorem calcSharpness_range (img : ImageData) (h : 0 ≤ img.laplacianVar) :
    0 ≤ calcSharpness img ∧ calcSharpness img ≤ 100 := by
  unfold calcSharpness
  exact ⟨le_min (by norm_num) (div_nonneg h (by norm_num)), min_le_left _ _⟩

theorem analyzeLightingQuality_range (img : ImageData)
    (h256 : img.grayHist.length = 256) :
    0 ≤ analyzeLightingQuality img ∧ analyzeLightingQuality img ≤ 100 := by
  unfold analyzeLightingQuality
  refine ⟨le_max_left 0 _, ?_⟩
  apply max_le (by norm_num)
  have hcount : ((img.grayHist.filter (fun b => b != 0)).length : ℚ) ≤ 256 := by
    have h1 := List.length_filter_le (fun b => b != 0) img.grayHist
    rw [h256] at h1
    exact_mod_cast h1
  have hover : (0 : ℚ)
      ≤ ((img.grayHist.drop 240).sum : ℚ) / ((img.grayHist.sum : ℕ) : ℚ) * 100 := by
    positivity
  have hd : ((img.grayHist.filter (fun b => b != 0)).length : ℚ) / 256 * 100
      ≤ 100 := by
    rw [div_mul_eq_mul_div, div_le_iff₀ (by norm_num)]
    linarith
  have hmax := le_trans hover
    (le_max_left (((img.grayHist.drop 240).sum : ℚ) / ((img.grayHist.sum : ℕ) : ℚ) * 100)
      (((img.grayHist.take 15).sum : ℚ) / ((img.grayHist.sum : ℕ) : ℚ) * 100))
  linarith

theorem analyzeBackground_range (img : ImageData)
    (h : 0 ≤ img.backgroundStdMean.getD 0) :
    0 ≤ analyzeBackground img ∧ analyzeBackground img ≤ 100 := by
  unfold analyzeBackground
  cases hb : img.backgroundStdMean with
  | none => norm_num
  | some s =>
      rw [hb, Option.getD_some] at h
      exact ⟨le_max_left 0 _, max_le (by norm_num) (by linarith)⟩

theorem analyzeColorAccuracy_range (img : ImageData) (pt : String) :
    0 ≤ analyzeColorAccuracy img pt ∧ analyzeColorAccuracy img pt ≤ 100 := by
  unfold analyzeColorAccuracy
  cases h : lookupStandard pt with
  | none => norm_num
  | some std => exact ⟨le_min (by norm_num) (by positivity), min_le_left _ _⟩

theorem analyzeSizeAppropriateness_range (img : ImageData) (pt : String) :
    0 ≤ analyzeSizeAppropriateness img pt ∧
    analyzeSizeAppropriateness img pt ≤ 100 := by
  unfold analyzeSizeAppropriateness
  cases h : lookupStandard pt with
  | none => norm_num
  | some std =>
      have hpos := lookupStandard_size_pos h
      cases ha : img.contourArea with
      | none => norm_num
      | some a =>
          dsimp only
          by_cases h1 : std.sizeMin ≤ a ∧ a ≤ std.sizeMax
          · rw [if_pos h1]; norm_num
          · rw [if_neg h1]
            by_cases h2 : a < std.sizeMin
            · rw [if_pos h2]
              refine ⟨le_max_left 0 _, max_le (by norm_num) ?_⟩
              have hnn : 0 ≤ (std.sizeMin - a) / std.sizeMin * 100 :=
                mul_nonneg (div_nonneg (by linarith) (le_of_lt hpos.1)) (by norm_num)
              linarith
            · rw [if_neg h2]
              refine ⟨le_max_left 0 _, max_le (by norm_num) ?_⟩
              have hgt : std.sizeMax < a := by
                rcases not_and_or.mp h1 with hc | hc
                · exact absurd (le_of_not_lt h2) hc
                · exact lt_of_not_le hc
              have hnn : 0 ≤ (a - std.sizeMax) / std.sizeMax * 100 :=
                mul_nonneg (div_nonneg (by linarith) (le_of_lt hpos.2.1)) (by norm_num)
              linarith

theorem analyzeShapeRegularity_range (img : ImageData) (pt : String) :
    0 ≤ analyzeShapeRegularity img pt ∧ analyzeShapeRegularity img pt ≤ 100 := by
  unfold analyzeShapeRegularity
  cases h : lookupStandard pt with
  | none => norm_num
  | some std =>
      cases hc : img.contourCircularity with
      | none => norm_num
      | some c =>
          refine ⟨le_max_left 0 _, max_le (by norm_num) ?_⟩
          have : 0 ≤ |c - std.shapeCircularity| * 100 := by positivity
          linarith

/-- C3 (counterexample): on a 1-by-1 all-white decoded image the
`brightness` metric is 255, outside [0,100] — so not every metric in the
returned map lies in [0,100]. -/
theorem metrics_range_counterexample :
    (comprehensiveQualityAnalysis whiteImg "apple").brightness = some 255 ∧
    ¬ ((255 : ℚ) ≤ 100) := by
  constructor
  · norm_num [comprehensiveQualityAnalysis, calcBrightness, listMean, whiteImg]
  · norm_num

/-- C3 (amended): for every well-formed decoded image and product type, the
clamped and normalized metrics (`sharpness`, `lighting_quality`,
`background_uniformity`, `color_accuracy`, `size_appropriateness`,
`shape_regularity`) lie in [0,100] whenever present; `brightness` and
`saturation` are raw channel means in [0,255]; `contrast`, `noise_level`
and `focus_quality` are nonnegative unnormalized statistics. -/
theorem metrics_range (img : ImageData) (pt : String) (hwf : img.WellFormed) :
    (∀ v, (comprehensiveQualityAnalysis img pt).sharpness = some v →
      0 ≤ v ∧ v ≤ 100) ∧
    (∀ v, (comprehensiveQualityAnalysis img pt).lightingQuality = some v →
      0 ≤ v ∧ v ≤ 100) ∧
    (∀ v, (comprehensiveQualityAnalysis img pt).backgroundUniformity = some v →
      0 ≤ v ∧ v ≤ 100) ∧
    (∀ v, (comprehensiveQualityAnalysis img pt).colorAccuracy = some v →
      0 ≤ v ∧ v ≤ 100) ∧
    (∀ v, (comprehensiveQualityAnalysis img pt).sizeAppropriateness = some v →
      0 ≤ v ∧ v ≤ 100) ∧
    (∀ v, (comprehensiveQualityAnalysis img pt).shapeRegularity = some v →
      0 ≤ v ∧ v ≤ 100) ∧
    (∀ v, (comprehensiveQualityAnalysis img pt).brightness = some v →
      0 ≤ v ∧ v ≤ 255) ∧
    (∀ v, (comprehensiveQualityAnalysis img pt).saturation = some v →
      0 ≤ v ∧ v ≤ 255) ∧
    (∀ v, (comprehensiveQualityAnalysis img pt).contrast = some v → 0 ≤ v) ∧
    (∀ v, (comprehensiveQualityAnalysis img pt).noiseLevel = some v → 0 ≤ v) ∧
    (∀ v, (comprehensiveQualityAnalysis img pt).focusQuality = some v → 0 ≤ v) := by
  obtain ⟨hg0, hhsv0, hgray, hhsv, h256, hlap, hgrad, hblur, hstd, hbg, hhue, htex⟩ := hwf
  refine ⟨?_, ?_, ?_, ?_, ?_, ?_, ?_, ?_, ?_, ?_, ?_⟩
  · intro v hv
    cases Option.some.inj hv
    exact calcSharpness_range img hlap
  · intro v hv
    cases Option.some.inj hv
    exact analyzeLightingQuality_range img h256
  · intro v hv
    cases Option.some.inj hv
    exact analyzeBackground_range img hbg
  · intro v hv
    simp only [comprehensiveQualityAnalysis] at hv
    split at hv
    · cases Option.some.inj hv
      exact analyzeColorAccuracy_range img pt
    · exact Option.noConfusion hv
  · intro v hv
    simp only [comprehensiveQualityAnalysis] at hv
    split at hv
    · cases Option.some.inj hv
      exact analyzeSizeAppropriateness_range img pt
    · exact Option.noConfusion hv
  · intro v hv
    simp only [comprehensiveQualityAnalysis] at hv
    split at hv
    · cases Option.some.inj hv
      exact analyzeShapeRegularity_range img pt
    · exact Option.noConfusion hv
  · intro v hv
    cases Option.some.inj hv
    exact ⟨listMean_nonneg (fun x hx => (hgray x hx).1),
      listMean_le hg0 (fun x hx => (hgray x hx).2)⟩
  · intro v hv
    cases Option.some.inj hv
    refine ⟨listMean_nonneg ?_, listMean_le ?_ ?_⟩
    · intro x hx
      obtain ⟨p, hp, rfl⟩ := List.mem_map.mp hx
      exact (hhsv p hp).1
    · simpa [List.map_eq_nil_iff] using hhsv0
    · intro x hx
      obtain ⟨p, hp, rfl⟩ := List.mem_map.mp hx
      exact (hhsv p hp).2
  · intro v hv
    cases Option.some.inj hv
    exact hstd
  · intro v hv
    cases Option.some.inj hv
    exact hblur
  · intro v hv
    cases Option.some.inj hv
    exact hgrad

/-- C3 (witness): the concrete white image is well-formed, and its present
`sharpness` metric is in [0,100]. -/
theorem metrics_range_witness :
    whiteImg.WellFormed ∧
    (∀ v, (comprehensiveQualityAnalysis whiteImg "apple").sharpness = some v →
      0 ≤ v ∧ v ≤ 100) := by
  have hwf : whiteImg.WellFormed := by norm_num [ImageData.WellFormed, whiteImg]
  exact ⟨hwf, (metrics_range whiteImg "apple" hwf).1⟩

end AgriMart
